import Mathlib

/-
  Shallow embedding of the GatewayClient connection engine from
  src/ether-portal-web/js/gateway.js.

  Modelling conventions:
  - The mutable fields of the GatewayClient object become a Lean structure
    GatewayState; each method or event handler becomes a pure function
    GatewayState -> GatewayState x Effects.
  - JavaScript timers are modelled by explicit events: the 30s per-request
    timeout callback is the function timeoutFire, the 25s ping interval
    callback is pingTick, the reconnect timer is the boolean reconnectTimer
    together with the armedDelay effect.
  - Promise settlement is recorded in the Effects output: settled lists the
    (requestId, outcome) pairs produced by calls to the stored resolve and
    reject callbacks of pending requests; connectResolve and connectReject
    record calls to the resolve and reject callbacks of the outer connect
    promise.
  - The WebSocket handle this.ws becomes (Option ReadyState): none models
    this.ws === null, and the ReadyState value models ws.readyState.
    transportsOpened is a ghost counter incremented at each construction of
    a new WebSocket; nextPromiseId is a ghost counter naming the promise
    objects created by connect().
  - JavaScript string truthiness (empty string is falsy) is modelled by
    jsTruthyStr on (Option String), where none models undefined.
-/

namespace EtherGateway

/-- Four readyState values of a browser WebSocket handle. -/
inductive ReadyState where
  | connecting
  | opened
  | closing
  | closed
deriving DecidableEq, Repr

/-- A JavaScript Error object as used by gateway.js: a message string and an
optionally attached code property (error.code = ... at line 194). -/
structure JsError where
  message : String
  code : Option String
deriving DecidableEq, Repr

/-- The payload of an inbound res frame. ptype models data.payload.type,
protocol models data.payload.protocol and deviceToken models
data.payload.auth?.deviceToken (the only payload fields gateway.js reads). -/
structure ResPayload where
  ptype : Option String
  protocol : Option Nat
  deviceToken : Option String
deriving DecidableEq, Repr

/-- The error field of an inbound res frame: error.code and error.message.
Fields are optional because the JS object may omit them. -/
structure ErrInfo where
  code : Option String
  message : Option String
deriving DecidableEq, Repr

/-- An inbound frame with type res, as destructured by handleMessage
(lines 148-199 of gateway.js). -/
structure ResFrame where
  id : Option String
  ok : Bool
  payload : Option ResPayload
  error : Option ErrInfo
deriving DecidableEq, Repr

/-- Settlement of the promise of a tracked pending request: a call to its
stored resolve callback (with the frame payload) or to its stored reject
callback (with a JsError). -/
inductive Outcome where
  | resolved (payload : Option ResPayload)
  | rejected (e : JsError)
deriving DecidableEq, Repr

/-- Observable side effects of one handler or method invocation. -/
structure Effects where
  emits : List String := []
  closes : List (Nat × String) := []
  settled : List (String × Outcome) := []
  connectResolve : Option (Option ResPayload) := none
  connectReject : Option JsError := none
  armedDelay : Option Nat := none
  pingsSent : Nat := 0
deriving DecidableEq, Repr

/-- The mutable state of a GatewayClient instance (constructor, lines 5-20).
challengeNonce is carried for fidelity though no claim depends on it.
pendingRequests keeps only the tracked ids: the stored callbacks are
modelled through the settled list of Effects. -/
structure GatewayState where
  ws : Option ReadyState
  connected : Bool
  requestId : Nat
  pendingRequests : List String
  reconnectTimer : Bool
  pingInterval : Bool
  lastPong : Option Nat
  connectionAttempts : Nat
  maxReconnectAttempts : Nat
  challengeNonce : Option String
  connectPromise : Option Nat
  storedDeviceToken : Option String
  nextPromiseId : Nat
  transportsOpened : Nat
deriving DecidableEq, Repr

/-- The state a fresh GatewayClient starts in (constructor, lines 5-20). -/
def initialState : GatewayState where
  ws := none
  connected := false
  requestId := 0
  pendingRequests := []
  reconnectTimer := false
  pingInterval := false
  lastPong := none
  connectionAttempts := 0
  maxReconnectAttempts := 5
  challengeNonce := none
  connectPromise := none
  storedDeviceToken := none
  nextPromiseId := 0
  transportsOpened := 0

/-- JavaScript truthiness of a possibly-undefined string: undefined and the
empty string are falsy. -/
def jsTruthyStr : Option String → Bool
  | none => false
  | some s => s ≠ ""

/-- JavaScript a || b on possibly-undefined strings with a string default:
models expressions such as data.error.message || data.error.code || fallback. -/
def jsOrStrD (a : Option String) (d : String) : String :=
  if jsTruthyStr a then a.getD d else d

/-- JavaScript truthiness of a possibly-undefined number (a timestamp):
undefined and 0 are falsy. Models the guard this.lastPong && ... . -/
def jsTruthyNat : Option Nat → Bool
  | none => false
  | some n => n ≠ 0

/-- Fixed per-request timeout of send, milliseconds (line 315). -/
def requestTimeoutMs : Nat := 30000

/-- Fixed ping interval, milliseconds (line 333). -/
def pingIntervalMs : Nat := 25000

/-- Pong silence threshold, milliseconds (line 326). -/
def pongSilenceMs : Nat := 60000

/-- The request id of a tracked pending request matching the frame, if any:
models pending = this.pendingRequests.get(data.id) at line 150. -/
def matchedPending (s : GatewayState) (f : ResFrame) : Option String :=
  match f.id with
  | some i => if s.pendingRequests.contains i then some i else none
  | none => none

/-- Translation of the res-frame part of handleMessage (lines 148-199).
The now argument is the Date.now() read inside startPing. Branch order is
exactly that of the source: first the hello-ok branch (line 152), then the
not-ok-with-error branch (line 175), then the regular-response branch
(line 188). startPing (line 163) is modelled by setting pingInterval and
lastPong. -/
def handleRes (s : GatewayState) (f : ResFrame) (now : Nat) : GatewayState × Effects :=
  let pendingId := matchedPending s f
  if f.payload.bind ResPayload.ptype = some "hello-ok" then
    let dt := f.payload.bind ResPayload.deviceToken
    ({ s with
        connected := true
        connectionAttempts := 0
        storedDeviceToken := if jsTruthyStr dt then dt else s.storedDeviceToken
        pingInterval := true
        lastPong := some now
        pendingRequests :=
          match pendingId with
          | some i => s.pendingRequests.erase i
          | none => s.pendingRequests },
     { emits := ["connected"]
       settled :=
         match pendingId with
         | some i => [(i, Outcome.resolved f.payload)]
         | none => []
       connectResolve := some f.payload })
  else if (!f.ok) && f.error.isSome then
    let e := f.error.getD ⟨none, none⟩
    let errMsg := jsOrStrD e.message (jsOrStrD e.code "Authentication failed")
    (match pendingId with
      | some i => { s with pendingRequests := s.pendingRequests.erase i }
      | none => s,
     { settled :=
         match pendingId with
         | some i => [(i, Outcome.rejected ⟨errMsg, none⟩)]
         | none => []
       connectReject := some ⟨errMsg, none⟩ })
  else
    match pendingId with
    | some i =>
        ({ s with pendingRequests := s.pendingRequests.erase i },
         { settled :=
             if f.ok then
               [(i, Outcome.resolved f.payload)]
             else
               [(i, Outcome.rejected
                   ⟨jsOrStrD (f.error.bind ErrInfo.message) "Request failed",
                    f.error.bind ErrInfo.code⟩)] })
    | none => (s, {})

/-- Translation of the pong branch of handleMessage (lines 218-221). -/
def handlePong (s : GatewayState) (now : Nat) : GatewayState :=
  { s with lastPong := some now }

/-- Translation of nextId (lines 287-289). -/
def nextId (s : GatewayState) (now : Nat) : GatewayState × String :=
  ({ s with requestId := s.requestId + 1 },
   "req_" ++ toString (s.requestId + 1) ++ "_" ++ toString now)

/-- Result of a call to send: either an immediate rejection of the returned
promise, or the id under which the request was registered. -/
structure SendResult where
  immediateReject : Option JsError
  sentId : Option String
deriving DecidableEq, Repr

/-- Translation of send (lines 291-317). The 30 second timeout armed at
line 310 is modelled by the separate event timeoutFire. -/
def sendOp (s : GatewayState) (now : Nat) : GatewayState × SendResult :=
  if !(s.connected && s.ws == some ReadyState.opened) then
    (s, { immediateReject := some ⟨"Not connected to gateway", none⟩, sentId := none })
  else
    let (s1, i) := nextId s now
    ({ s1 with pendingRequests := s1.pendingRequests ++ [i] },
     { immediateReject := none, sentId := some i })

/-- Translation of the 30 second timeout callback of send (lines 310-315):
if the id is still tracked, remove it and reject with a timeout error. -/
def timeoutFire (s : GatewayState) (i : String) : GatewayState × Effects :=
  if s.pendingRequests.contains i then
    ({ s with pendingRequests := s.pendingRequests.erase i },
     { settled := [(i, Outcome.rejected ⟨"Request timeout", none⟩)] })
  else
    (s, {})

/-- Translation of connect (lines 66-135), success path of the executor:
if a connect promise is already in flight, it is returned unchanged and
nothing else happens (lines 68-70); otherwise the attempt counter is
incremented, a new WebSocket is constructed and a new promise is stored.
Returns the state, the id of the returned promise, and whether a new
transport was opened. -/
def connectStep (s : GatewayState) : GatewayState × Nat × Bool :=
  match s.connectPromise with
  | some p => (s, p, false)
  | none =>
      let p := s.nextPromiseId
      ({ s with
          connectPromise := some p
          nextPromiseId := p + 1
          connectionAttempts := s.connectionAttempts + 1
          ws := some ReadyState.connecting
          transportsOpened := s.transportsOpened + 1 },
       p, true)

/-- Translation of the ws.onopen handler (lines 92-96) together with the
browser moving readyState to OPEN. -/
def wsOnOpen (s : GatewayState) : GatewayState × Effects :=
  ({ s with ws := s.ws.map fun _ => ReadyState.opened },
   { emits := ["socket_open"] })

/-- Translation of the ws.onclose handler (lines 107-120) together with the
browser moving readyState to CLOSED. Note the handler does not null out
this.ws, does not touch reconnectTimer and invokes no reconnection
scheduling; since this.connected was just set to false, the guard at
line 117 is always true and the connect promise reject callback is always
invoked (a no-op in JS when the promise is already settled). -/
def wsOnClose (s : GatewayState) (code : Nat) (reason : String) : GatewayState × Effects :=
  ({ s with
      ws := s.ws.map fun _ => ReadyState.closed
      connected := false
      connectPromise := none
      challengeNonce := none
      pingInterval := false },
   { emits := ["disconnected"]
     connectReject := some ⟨jsOrStrD (some reason) ("Connection closed (" ++ toString code ++ ")"), none⟩ })

/-- Translation of disconnect (lines 343-360): stopPing, reset the attempt
counter, clear the reconnect timer, close the transport with code 1000 when
a handle exists, null the handle, clear connected, clear the connect
promise and clear the pending-request map. The source calls
this.pendingRequests.clear() without invoking any stored reject callback,
so settled is empty. -/
def disconnectOp (s : GatewayState) : GatewayState × Effects :=
  ({ s with
      pingInterval := false
      connectionAttempts := 0
      reconnectTimer := false
      ws := none
      connected := false
      connectPromise := none
      pendingRequests := [] },
   { closes := if s.ws.isSome then [(1000, "User disconnect")] else [] })

/-- The backoff delay computed at line 371: min(1000 * 2^attempt, 30000). -/
def reconnectDelay (attempt : Nat) : Nat :=
  min (1000 * 2 ^ attempt) 30000

/-- Translation of scheduleReconnect (lines 363-381): a no-op when a timer
is already armed; emits max_reconnects and schedules nothing when the
attempt counter has reached the maximum; otherwise arms one timer at the
backoff delay. -/
def scheduleReconnect (s : GatewayState) : GatewayState × Effects :=
  if s.reconnectTimer then
    (s, {})
  else if s.maxReconnectAttempts ≤ s.connectionAttempts then
    (s, { emits := ["max_reconnects"] })
  else
    ({ s with reconnectTimer := true },
     { armedDelay := some (reconnectDelay s.connectionAttempts) })

/-- Translation of the ping interval callback (lines 323-333): only acts
when the handle is OPEN; when lastPong is truthy and more than 60000 ms
old it closes the transport with code 4000 and does nothing else;
otherwise it sends one ping frame. The browser moves readyState to CLOSING
at the close call. -/
def pingTick (s : GatewayState) (now : Nat) : GatewayState × Effects :=
  if s.ws == some ReadyState.opened then
    if jsTruthyNat s.lastPong && decide (pongSilenceMs < now - s.lastPong.getD 0) then
      ({ s with ws := some ReadyState.closing },
       { closes := [(4000, "Ping timeout")] })
    else
      (s, { pingsSent := 1 })
  else
    (s, {})

/-- Translation of getConnectionState (lines 472-481). -/
def getConnectionState (s : GatewayState) : String :=
  match s.ws with
  | none => "disconnected"
  | some ReadyState.connecting => "connecting"
  | some ReadyState.opened => if s.connected then "connected" else "authenticating"
  | some ReadyState.closing => "closing"
  | some ReadyState.closed => "disconnected"

/-- States produced by the modelled operations from the fresh client state:
each constructor is one method call or one transport or timer event. -/
inductive Reachable : GatewayState → Prop where
  | init : Reachable initialState
  | connect (s : GatewayState) : Reachable s → Reachable (connectStep s).1
  | sockOpen (s : GatewayState) : Reachable s → Reachable (wsOnOpen s).1
  | sockClose (s : GatewayState) (c : Nat) (r : String) :
      Reachable s → Reachable (wsOnClose s c r).1
  | res (s : GatewayState) (f : ResFrame) (now : Nat) :
      Reachable s → Reachable (handleRes s f now).1
  | pong (s : GatewayState) (now : Nat) : Reachable s → Reachable (handlePong s now)
  | sendReq (s : GatewayState) (now : Nat) : Reachable s → Reachable (sendOp s now).1
  | timeout (s : GatewayState) (i : String) : Reachable s → Reachable (timeoutFire s i).1
  | disconnect (s : GatewayState) : Reachable s → Reachable (disconnectOp s).1
  | sched (s : GatewayState) : Reachable s → Reachable (scheduleReconnect s).1
  | ping (s : GatewayState) (now : Nat) : Reachable s → Reachable (pingTick s now).1

/-- A successful handshake response frame: type res with payload.type
hello-ok, as produced by the gateway after the connect request. -/
def helloOkFrame : ResFrame where
  id := none
  ok := true
  payload := some { ptype := some "hello-ok", protocol := some 3, deviceToken := none }
  error := none

/-- The state after connect(), transport open and a successful hello-ok
handshake at time 0: connected, ws OPEN, heartbeat started. -/
def connectedState : GatewayState :=
  (handleRes (wsOnOpen (connectStep initialState).1).1 helloOkFrame 0).1

/-- The state after one successful send() at time 100 from connectedState:
exactly one tracked pending request. -/
def sentState : GatewayState := (sendOp connectedState 100).1

/-- The id allocated by that send() call (nextId with counter 1, now 100). -/
def reqId1 : String := "req_1_100"

/-
  Per-request trace semantics for the exactly-once claim: the events that
  can affect one tracked pending request after send() succeeded, each
  translated to the corresponding gateway.js code path.
-/

/-- An event affecting one tracked pending request: an inbound res frame
carrying its id, the firing of its 30 second timeout, or a client call to
disconnect(). -/
inductive ReqEvent where
  | response (ok : Bool) (err : Option ErrInfo)
  | timeoutFired
  | clientDisconnect
deriving DecidableEq, Repr

/-- A regular (non-handshake) res frame addressed to request i. -/
def reqFrame (i : String) (ok : Bool) (err : Option ErrInfo) : ResFrame where
  id := some i
  ok := ok
  payload := none
  error := err

/-- One step of the per-request machine, dispatching to the translated
source operations. -/
def reqStep (i : String) (s : GatewayState) (e : ReqEvent) : GatewayState × Effects :=
  match e with
  | ReqEvent.response ok err => handleRes s (reqFrame i ok err) 0
  | ReqEvent.timeoutFired => timeoutFire s i
  | ReqEvent.clientDisconnect => disconnectOp s

/-- Run a trace of request events, collecting every promise settlement the
code performs along the way. -/
def runReq (i : String) (s : GatewayState) : List ReqEvent → GatewayState × List (String × Outcome)
  | [] => (s, [])
  | e :: tr =>
      let r1 := reqStep i s e
      let r2 := runReq i r1.1 tr
      (r2.1, r1.2.settled ++ r2.2)

/-
  Event dispatcher model for emit (lines 399-421): a handler is modelled as
  a function from the shared observation log to either ok (normal return)
  or error (a throw), in both cases carrying the log extended by the work
  the handler performed before returning or throwing. The try/catch wrapper
  of emit keeps that log and continues with the next handler either way;
  handlers of a topic are iterated in Set insertion order, which is
  registration order, and then the wildcard handlers are iterated.
-/

/-- A dispatcher handler: performs work on the log and either returns or
throws. -/
def HandlerFn : Type := List Nat → Except (List Nat) (List Nat)

/-- The try/catch wrapper around one handler call (lines 402-408): a throw
is caught and reported, and dispatch continues. -/
def tryCall (h : HandlerFn) (log : List Nat) : List Nat :=
  match h log with
  | Except.ok l => l
  | Except.error l => l

/-- forEach over one handler collection with per-handler try/catch. -/
def runHandlers (hs : List HandlerFn) (log : List Nat) : List Nat :=
  hs.foldl (fun acc h => tryCall h acc) log

/-- Translation of emit (lines 399-421): run the topic handlers in
registration order, then the wildcard handlers in registration order. -/
def emitDispatch (topicHandlers wildcardHandlers : List HandlerFn) : List Nat :=
  runHandlers wildcardHandlers (runHandlers topicHandlers [])

/-- An instrumented handler that records its own invocation by appending
its index, then either returns normally or throws. -/
def markHandler (i : Nat) (throws : Bool) : HandlerFn :=
  fun log => if throws then Except.error (log ++ [i]) else Except.ok (log ++ [i])

/-- A registration list of instrumented handlers, each with an index and a
flag saying whether it throws when invoked. -/
def markHandlers (l : List (Nat × Bool)) : List HandlerFn :=
  l.map fun x => markHandler x.1 x.2

/-
  Helper lemmas.
-/

/-- The try/catch wrapper records the invocation of an instrumented handler
whether or not it throws. -/
theorem tryCall_markHandler (i : Nat) (t : Bool) (log : List Nat) :
    tryCall (markHandler i t) log = log ++ [i] := by
  cases t <;> rfl

/-- Running a collection of instrumented handlers appends every index in
registration order, regardless of which handlers throw. -/
theorem runHandlers_markHandlers (l : List (Nat × Bool)) (log : List Nat) :
    runHandlers (markHandlers l) log = log ++ l.map Prod.fst := by
  induction l generalizing log with
  | nil => simp [runHandlers, markHandlers]
  | cons x l ih =>
      have step : runHandlers (markHandlers (x :: l)) log
          = runHandlers (markHandlers l) (tryCall (markHandler x.1 x.2) log) := rfl
      rw [step, tryCall_markHandler, ih]
      simp

/-- When no request is tracked, processing any request event settles
nothing and leaves the map empty. -/
theorem reqStep_of_empty (i : String) (s : GatewayState) (e : ReqEvent)
    (h : s.pendingRequests = []) :
    (reqStep i s e).1.pendingRequests = [] ∧ (reqStep i s e).2.settled = [] := by
  cases e with
  | response ok err =>
      cases ok <;> cases err <;>
        simp [reqStep, handleRes, reqFrame, matchedPending, h, Option.isSome]
  | timeoutFired =>
      simp [reqStep, timeoutFire, h]
  | clientDisconnect =>
      simp [reqStep, disconnectOp]

/-- When no request is tracked, a whole trace settles nothing and the map
stays empty. -/
theorem runReq_of_empty (i : String) (tr : List ReqEvent) (s : GatewayState)
    (h : s.pendingRequests = []) :
    (runReq i s tr).2 = [] ∧ (runReq i s tr).1.pendingRequests = [] := by
  induction tr generalizing s with
  | nil => simpa [runReq] using h
  | cons e tr ih =>
      obtain ⟨hp, hs⟩ := reqStep_of_empty i s e h
      obtain ⟨h1, h2⟩ := ih (reqStep i s e).1 hp
      simp [runReq, hs, h1, h2]

/-- When exactly request i is tracked, one request event empties the map;
it settles exactly one outcome, except for disconnect which settles none. -/
theorem reqStep_of_single (i : String) (s : GatewayState) (e : ReqEvent)
    (h : s.pendingRequests = [i]) :
    (reqStep i s e).1.pendingRequests = [] ∧
    (reqStep i s e).2.settled.length
      = (if e = ReqEvent.clientDisconnect then 0 else 1) := by
  cases e with
  | response ok err =>
      cases ok <;> cases err <;>
        simp [reqStep, handleRes, reqFrame, matchedPending, h, Option.isSome]
  | timeoutFired =>
      simp [reqStep, timeoutFire, h]
  | clientDisconnect =>
      simp [reqStep, disconnectOp]

/-
  Claim C1.
-/

/-- Formalisation of claim C1 as stated: in every complete run (the 30s
timeout callback always fires eventually, so complete traces are those
containing timeoutFired), the submitted request reaches exactly one
terminal outcome, one of resolve, reject-by-response, reject-by-timeout or
reject-by-disconnect, and the pending map retains no entry afterwards. -/
def claimC1Statement : Prop :=
  ∀ tr : List ReqEvent, ReqEvent.timeoutFired ∈ tr →
    (runReq reqId1 sentState tr).2.length = 1 ∧
    (runReq reqId1 sentState tr).1.pendingRequests = []

/-- C1 counterexample: if disconnect() is called while the request is
pending, the entry is cleared from the map without any rejection, and the
later timeout callback finds the id untracked and also rejects nothing, so
the promise never settles: zero terminal outcomes occur, not one. -/
theorem claimC1_counterexample : ¬ claimC1Statement := by
  intro h
  have h2 := (h [ReqEvent.clientDisconnect, ReqEvent.timeoutFired] (by simp)).1
  have h3 : (runReq reqId1 sentState
      [ReqEvent.clientDisconnect, ReqEvent.timeoutFired]).2 = [] := by decide
  rw [h3] at h2
  simp at h2

/-- C1 amended: for every submitted request at most one of {resolve,
reject-by-response, reject-by-timeout} occurs; exactly one occurs in every
complete run in which disconnect() is not called; disconnect() removes a
pending entry without settling it (there is no reject-by-disconnect
outcome, the promise is left forever pending); and the map retains no
entry once any settlement has occurred. -/
theorem claimC1_request_outcomes (tr : List ReqEvent) :
    (runReq reqId1 sentState tr).2.length ≤ 1 ∧
    (ReqEvent.timeoutFired ∈ tr → ¬ ReqEvent.clientDisconnect ∈ tr →
      (runReq reqId1 sentState tr).2.length = 1) ∧
    ((runReq reqId1 sentState tr).2 ≠ [] →
      (runReq reqId1 sentState tr).1.pendingRequests = []) := by
  have hsent : sentState.pendingRequests = [reqId1] := by decide
  cases tr with
  | nil =>
      refine ⟨by simp [runReq], ?_, ?_⟩
      · intro ht; simp at ht
      · intro hne; simp [runReq] at hne
  | cons e tr =>
      obtain ⟨hp, hl⟩ := reqStep_of_single reqId1 sentState e hsent
      obtain ⟨hrest, hpend⟩ := runReq_of_empty reqId1 tr (reqStep reqId1 sentState e).1 hp
      have hrun : (runReq reqId1 sentState (e :: tr)).2
          = (reqStep reqId1 sentState e).2.settled ++ (runReq reqId1 (reqStep reqId1 sentState e).1 tr).2 := rfl
      have hrunS : (runReq reqId1 sentState (e :: tr)).1
          = (runReq reqId1 (reqStep reqId1 sentState e).1 tr).1 := rfl
      refine ⟨?_, ?_, ?_⟩
      · rw [hrun, hrest]
        simp only [List.append_nil, hl]
        split <;> simp
      · intro _ hd
        have he : e ≠ ReqEvent.clientDisconnect := by
          intro hcon; exact hd (by simp [hcon])
        rw [hrun, hrest]
        simp only [List.append_nil, hl, if_neg he]
      · intro _
        rw [hrunS, hpend]

/-- C1 witness: a complete run without disconnect settles exactly once. -/
theorem claimC1_witness :
    (ReqEvent.timeoutFired ∈ [ReqEvent.timeoutFired] ∧
     ¬ ReqEvent.clientDisconnect ∈ [ReqEvent.timeoutFired]) ∧
    (runReq reqId1 sentState [ReqEvent.timeoutFired]).2.length = 1 :=
  ⟨⟨by decide, by decide⟩,
   (claimC1_request_outcomes [ReqEvent.timeoutFired]).2.1 (by decide) (by decide)⟩

/-
  Claim C2.
-/

/-- A sequence of n immediately interleaved connect() calls, collecting the
promise each caller receives. -/
def connectCalls : Nat → GatewayState → GatewayState × List Nat
  | 0, s => (s, [])
  | n + 1, s =>
      let r1 := connectStep s
      let r2 := connectCalls n r1.1
      (r2.1, r1.2.1 :: r2.2)

/-- While a connect promise is in flight, any number of connect() calls
leave the state untouched and every caller receives that same promise. -/
theorem connectCalls_inflight (n : Nat) (s : GatewayState) (p : Nat)
    (h : s.connectPromise = some p) :
    connectCalls n s = (s, List.replicate n p) := by
  induction n with
  | zero => simp [connectCalls]
  | succ n ih =>
      have hstep : connectStep s = (s, p, false) := by
        simp [connectStep, h]
      simp [connectCalls, hstep, ih, List.replicate]

/-- C2 confirmed: calls to connect() made while a previous attempt is in
flight open no new transport and return the very same promise, so every
caller observes the same resolution or rejection; the one transport of the
sequence is the one opened by the original call. -/
theorem claimC2_connect_idempotent (s : GatewayState) (p n : Nat)
    (h : s.connectPromise = some p) :
    connectCalls (n + 1) s = (s, List.replicate (n + 1) p) ∧
    (connectCalls (n + 1) s).1.transportsOpened = s.transportsOpened := by
  have h1 := connectCalls_inflight (n + 1) s p h
  exact ⟨h1, by rw [h1]⟩

/-- C2 witness: after one connect() from the fresh state, promise 0 is in
flight; three further interleaved calls return promise 0 three times, with
no further transport opened. -/
theorem claimC2_witness :
    ((connectStep initialState).1.connectPromise = some 0) ∧
    (connectCalls 3 (connectStep initialState).1
        = ((connectStep initialState).1, List.replicate 3 0) ∧
     (connectCalls 3 (connectStep initialState).1).1.transportsOpened
        = (connectStep initialState).1.transportsOpened) :=
  ⟨rfl, claimC2_connect_idempotent (connectStep initialState).1 0 2 rfl⟩

/-
  Claim C3.
-/

/-- Formalisation of the rejection clause of claim C3 as stated: every
request pending at the moment of disconnect() is rejected (with some
client-disconnect reason). -/
def claimC3Statement : Prop :=
  ∀ s : GatewayState, ∀ i ∈ s.pendingRequests,
    ∃ e : JsError, (i, Outcome.rejected e) ∈ (disconnectOp s).2.settled

/-- C3 counterexample: disconnect() calls pendingRequests.clear() without
invoking any stored reject callback, so a pending request is dropped with
no rejection at all. -/
theorem claimC3_counterexample : ¬ claimC3Statement := by
  intro h
  obtain ⟨e, he⟩ := h sentState reqId1 (by decide)
  simp [disconnectOp] at he

/-- C3 amended: disconnect() always succeeds and is idempotent; it cancels
the heartbeat and reconnect timers, clears the pending map WITHOUT
rejecting the dropped requests (their promises never settle), closes the
transport with normal-closure code 1000 exactly when a handle exists,
resets the attempt counter and leaves the client fully disconnected; a
second call changes nothing, emits nothing and closes nothing. -/
theorem claimC3_disconnect (s : GatewayState) :
    (disconnectOp s).1.pendingRequests = [] ∧
    (disconnectOp s).1.pingInterval = false ∧
    (disconnectOp s).1.reconnectTimer = false ∧
    (disconnectOp s).1.ws = none ∧
    (disconnectOp s).1.connected = false ∧
    (disconnectOp s).1.connectPromise = none ∧
    (disconnectOp s).1.connectionAttempts = 0 ∧
    (disconnectOp s).2.settled = [] ∧
    (disconnectOp s).2.emits = [] ∧
    (disconnectOp s).2.closes
      = (if s.ws.isSome then [(1000, "User disconnect")] else []) ∧
    (disconnectOp (disconnectOp s).1).1 = (disconnectOp s).1 ∧
    (disconnectOp (disconnectOp s).1).2.closes = [] ∧
    (disconnectOp (disconnectOp s).1).2.emits = [] :=
  ⟨rfl, rfl, rfl, rfl, rfl, rfl, rfl, rfl, rfl, rfl, rfl, rfl, rfl⟩

/-
  Claim C4.
-/

/-- C4 confirmed: the backoff delay of line 371 is min(1000 * 2^n, 30000);
attempts 0 to 4 give 1000, 2000, 4000, 8000, 16000 ms, every attempt from
5 onward gives exactly 30000 ms, and scheduleReconnect arms its timer at
exactly this delay for the current attempt counter. -/
theorem claimC4_backoff_delay (n : Nat) (s : GatewayState) (h5 : 5 ≤ n)
    (ht : s.reconnectTimer = false)
    (hlt : s.connectionAttempts < s.maxReconnectAttempts) :
    reconnectDelay 0 = 1000 ∧ reconnectDelay 1 = 2000 ∧ reconnectDelay 2 = 4000 ∧
    reconnectDelay 3 = 8000 ∧ reconnectDelay 4 = 16000 ∧
    reconnectDelay n = 30000 ∧
    (scheduleReconnect s).2.armedDelay
      = some (min (1000 * 2 ^ s.connectionAttempts) 30000) := by
  refine ⟨rfl, rfl, rfl, rfl, rfl, ?_, ?_⟩
  · have h32 : (32 : Nat) ≤ 2 ^ n := by
      calc (32 : Nat) = 2 ^ 5 := by norm_num
      _ ≤ 2 ^ n := Nat.pow_le_pow_right (by norm_num) h5
    have hbig : (30000 : Nat) ≤ 1000 * 2 ^ n := by
      calc (30000 : Nat) ≤ 1000 * 32 := by norm_num
      _ ≤ 1000 * 2 ^ n := Nat.mul_le_mul_left 1000 h32
    simp [reconnectDelay, Nat.min_eq_right hbig]
  · simp [scheduleReconnect, ht, Nat.not_le.mpr hlt, reconnectDelay]

/-- C4 witness at attempt 7 and the fresh state (attempt counter 0). -/
theorem claimC4_witness :
    (5 ≤ 7 ∧ initialState.reconnectTimer = false ∧
     initialState.connectionAttempts < initialState.maxReconnectAttempts) ∧
    (reconnectDelay 0 = 1000 ∧ reconnectDelay 1 = 2000 ∧ reconnectDelay 2 = 4000 ∧
     reconnectDelay 3 = 8000 ∧ reconnectDelay 4 = 16000 ∧
     reconnectDelay 7 = 30000 ∧
     (scheduleReconnect initialState).2.armedDelay
       = some (min (1000 * 2 ^ initialState.connectionAttempts) 30000)) :=
  ⟨⟨by norm_num, rfl, by decide⟩,
   claimC4_backoff_delay 7 initialState (by norm_num) rfl (by decide)⟩

/-
  Claim C5.
-/

/-- The client after reconnection attempts are exhausted: Disconnected,
attempt counter at the maximum of 5, no timer armed, no promise in flight. -/
def exhaustedState : GatewayState :=
  { initialState with connectionAttempts := 5 }

/-- Formalisation of claim C5 as stated: at an exhausted attempt counter,
scheduleReconnect arms nothing and emits the terminal event once, and an
explicit connect() call resets the attempt counter (to zero). -/
def claimC5Statement : Prop :=
  ∀ s : GatewayState,
    s.reconnectTimer = false →
    s.maxReconnectAttempts ≤ s.connectionAttempts →
    s.connectPromise = none →
    (scheduleReconnect s).2.emits = ["max_reconnects"] ∧
    (scheduleReconnect s).2.armedDelay = none ∧
    (connectStep s).1.connectionAttempts = 0

/-- C5 counterexample: connect() does not reset the attempt counter, it
increments it (line 73); from the exhausted state with counter 5 an
explicit connect() leaves the counter at 6, not 0. The counter is reset
only by a successful hello-ok handshake (line 155) or by disconnect()
(line 345). -/
theorem claimC5_counterexample : ¬ claimC5Statement := by
  intro h
  have h2 := (h exhaustedState rfl (by decide) rfl).2.2
  exact absurd h2 (by decide)

/-- C5 amended: once the counter has reached the maximum, scheduleReconnect
arms no timer, changes no state, and emits the terminal max_reconnects
event exactly once per invocation; since no timer is armed, no automatic
retry can invoke it again, so the event of the automatic chain fires once.
The counter is reset to zero by a successful hello-ok handshake (and by
disconnect()), not by the connect() call itself, which increments it. -/
theorem claimC5_exhaustion (s s2 s3 : GatewayState) (f : ResFrame) (now : Nat)
    (ht : s.reconnectTimer = false)
    (hx : s.maxReconnectAttempts ≤ s.connectionAttempts)
    (hf : f.payload.bind ResPayload.ptype = some "hello-ok")
    (hp : s.connectPromise = none) :
    (scheduleReconnect s).2.emits = ["max_reconnects"] ∧
    (scheduleReconnect s).2.armedDelay = none ∧
    (scheduleReconnect s).1 = s ∧
    (handleRes s2 f now).1.connectionAttempts = 0 ∧
    (disconnectOp s3).1.connectionAttempts = 0 ∧
    (connectStep s).1.connectionAttempts = s.connectionAttempts + 1 := by
  refine ⟨?_, ?_, ?_, ?_, rfl, ?_⟩
  · simp [scheduleReconnect, ht, hx]
  · simp [scheduleReconnect, ht, hx]
  · simp [scheduleReconnect, ht, hx]
  · simp [handleRes, hf]
  · simp [connectStep, hp]

/-- C5 witness at the exhausted state with a hello-ok handshake frame. -/
theorem claimC5_witness :
    (exhaustedState.reconnectTimer = false ∧
     exhaustedState.maxReconnectAttempts ≤ exhaustedState.connectionAttempts ∧
     helloOkFrame.payload.bind ResPayload.ptype = some "hello-ok" ∧
     exhaustedState.connectPromise = none) ∧
    ((scheduleReconnect exhaustedState).2.emits = ["max_reconnects"] ∧
     (scheduleReconnect exhaustedState).2.armedDelay = none ∧
     (scheduleReconnect exhaustedState).1 = exhaustedState ∧
     (handleRes exhaustedState helloOkFrame 0).1.connectionAttempts = 0 ∧
     (disconnectOp exhaustedState).1.connectionAttempts = 0 ∧
     (connectStep exhaustedState).1.connectionAttempts
        = exhaustedState.connectionAttempts + 1) :=
  ⟨⟨rfl, by decide, rfl, rfl⟩,
   claimC5_exhaustion exhaustedState exhaustedState exhaustedState helloOkFrame 0
     rfl (by decide) rfl rfl⟩

/-
  Claim C6.
-/

/-- Formalisation of claim C6 as stated, for a regular (non-handshake)
frame matching a tracked request: if ok, the promise resolves with the
payload; if not ok, it rejects with an error object carrying both the
machine-readable code and the human-readable message of the frame error
field. -/
def claimC6Statement : Prop :=
  ∀ (s : GatewayState) (f : ResFrame) (i : String) (e : ErrInfo) (c m : String) (now : Nat),
    f.payload = none →
    f.id = some i →
    s.pendingRequests.contains i = true →
    f.error = some e →
    e.code = some c →
    e.message = some m →
    (f.ok = true → (handleRes s f now).2.settled = [(i, Outcome.resolved f.payload)]) ∧
    (f.ok = false → (handleRes s f now).2.settled = [(i, Outcome.rejected ⟨m, some c⟩)])

/-- A client tracking one pending request with id r1. -/
def cexPendingState : GatewayState :=
  { initialState with pendingRequests := ["r1"] }

/-- An error response frame addressed to r1, carrying both a code and a
message in its error field. -/
def cexErrFrame : ResFrame where
  id := some "r1"
  ok := false
  payload := none
  error := some { code := some "EFOO", message := some "boom" }

/-- C6 counterexample: every not-ok frame that has an error field is
intercepted by the connect-error branch at line 175, which rejects with
new Error(message) and never attaches the code; the branch at lines
188-196 that would attach error.code is unreachable for such frames. The
rejection for cexErrFrame carries message boom and NO code, not code EFOO. -/
theorem claimC6_counterexample : ¬ claimC6Statement := by
  intro h
  have h2 := (h cexPendingState cexErrFrame "r1" ⟨some "EFOO", some "boom"⟩ "EFOO" "boom" 0
      rfl rfl (by decide) rfl rfl rfl).2 rfl
  exact absurd h2 (by decide)

/-- C6 amended: on a matching regular response the entry is removed; if ok
the promise resolves with the payload; if not ok and an error field is
present it rejects with an Error whose message is the error message
(falling back to the error code string, then to a fixed default), with no
code property attached; if not ok without an error field it rejects with
the fixed message Request failed and no code. -/
theorem claimC6_response_settlement (s : GatewayState) (f : ResFrame) (i : String) (now : Nat)
    (hp : f.payload.bind ResPayload.ptype ≠ some "hello-ok")
    (hi : f.id = some i)
    (hm : s.pendingRequests.contains i = true) :
    (handleRes s f now).1.pendingRequests = s.pendingRequests.erase i ∧
    (f.ok = true → (handleRes s f now).2.settled = [(i, Outcome.resolved f.payload)]) ∧
    (f.ok = false → f.error.isSome = true →
      (handleRes s f now).2.settled
        = [(i, Outcome.rejected
            ⟨jsOrStrD (f.error.bind ErrInfo.message)
               (jsOrStrD (f.error.bind ErrInfo.code) "Authentication failed"), none⟩)]) ∧
    (f.ok = false → f.error = none →
      (handleRes s f now).2.settled
        = [(i, Outcome.rejected ⟨"Request failed", none⟩)]) := by
  have hm2 : i ∈ s.pendingRequests := by simpa using hm
  have hmp : matchedPending s f = some i := by
    simp [matchedPending, hi, hm2]
  refine ⟨?_, ?_, ?_, ?_⟩
  · cases hok : f.ok <;> cases herr : f.error <;>
      simp [handleRes, hmp, hp, hok, herr]
  · intro hok
    cases herr : f.error <;> simp [handleRes, hmp, hp, hok, herr]
  · intro hok herrs
    cases herr : f.error with
    | none => rw [herr] at herrs; simp at herrs
    | some e => simp [handleRes, hmp, hp, hok, herr]
  · intro hok herr
    simp [handleRes, hmp, hp, hok, herr, jsOrStrD, jsTruthyStr]

/-- C6 witness at the concrete error frame for r1. -/
theorem claimC6_witness :
    (cexErrFrame.payload.bind ResPayload.ptype ≠ some "hello-ok" ∧
     cexErrFrame.id = some "r1" ∧
     cexPendingState.pendingRequests.contains "r1" = true) ∧
    ((handleRes cexPendingState cexErrFrame 0).1.pendingRequests
        = cexPendingState.pendingRequests.erase "r1" ∧
     (handleRes cexPendingState cexErrFrame 0).2.settled
        = [("r1", Outcome.rejected
            ⟨jsOrStrD (cexErrFrame.error.bind ErrInfo.message)
               (jsOrStrD (cexErrFrame.error.bind ErrInfo.code) "Authentication failed"),
             none⟩)]) :=
  ⟨⟨by decide, rfl, by decide⟩,
   ⟨(claimC6_response_settlement cexPendingState cexErrFrame "r1" 0
       (by decide) rfl (by decide)).1,
    (claimC6_response_settlement cexPendingState cexErrFrame "r1" 0
       (by decide) rfl (by decide)).2.2.1 rfl rfl⟩⟩

/-
  Claim C7.
-/

/-- Formalisation of claim C7 as stated: on pong silence beyond the window
the ping tick closes the transport with the distinguishing code, and once
the resulting close event has been handled a reconnection attempt has been
scheduled. -/
def claimC7Statement : Prop :=
  ∀ (s : GatewayState) (now lp : Nat),
    s.ws = some ReadyState.opened →
    s.lastPong = some lp →
    lp ≠ 0 →
    pongSilenceMs < now - lp →
    (pingTick s now).2.closes = [(4000, "Ping timeout")] ∧
    ((wsOnClose (pingTick s now).1 4000 "Ping timeout").1.reconnectTimer = true ∨
     (wsOnClose (pingTick s now).1 4000 "Ping timeout").2.armedDelay.isSome = true)

/-- The connected client after a pong observed at time 1. -/
def staleState : GatewayState := handlePong connectedState 1

/-- C7 counterexample: nothing in gateway.js invokes scheduleReconnect
from the close path (its only caller is its own retry callback at line
378), so after the heartbeat closes the transport and the close event is
handled, no reconnection timer is armed; the claim that a reconnection
attempt is then scheduled is false. -/
theorem claimC7_counterexample : ¬ claimC7Statement := by
  intro h
  have h2 := (h staleState 70000 1 rfl rfl (by decide) (by decide)).2
  rcases h2 with h2 | h2 <;> exact absurd h2 (by decide)

/-- C7 amended: the ping interval is fixed at 25000 ms; when the last pong
is more than 60000 ms old the tick closes the transport with code 4000 and
takes no other action, the close happens exactly once (subsequent ticks see
a non-OPEN handle and do nothing, sending no ping either), and the close
handler neither arms a reconnection timer nor invokes the reconnection
scheduler: closing the transport is the sole consequence of the heartbeat. -/
theorem claimC7_heartbeat (s : GatewayState) (now now2 lp : Nat)
    (hw : s.ws = some ReadyState.opened)
    (hlp : s.lastPong = some lp)
    (h0 : lp ≠ 0)
    (hgap : pongSilenceMs < now - lp) :
    pingIntervalMs = 25000 ∧
    (pingTick s now).2.closes = [(4000, "Ping timeout")] ∧
    (pingTick s now).2.pingsSent = 0 ∧
    (pingTick s now).1.ws = some ReadyState.closing ∧
    (pingTick (pingTick s now).1 now2).2.closes = [] ∧
    (pingTick (pingTick s now).1 now2).2.pingsSent = 0 ∧
    (wsOnClose (pingTick s now).1 4000 "Ping timeout").1.reconnectTimer
        = s.reconnectTimer ∧
    (wsOnClose (pingTick s now).1 4000 "Ping timeout").2.armedDelay = none := by
  have hcond : (jsTruthyNat s.lastPong
      && decide (pongSilenceMs < now - s.lastPong.getD 0)) = true := by
    rw [hlp]
    simp [jsTruthyNat, h0]
    simpa [hlp] using hgap
  have hclose : pingTick s now
      = ({ s with ws := some ReadyState.closing },
         { closes := [(4000, "Ping timeout")] }) := by
    simp [pingTick, hw, hcond]
  refine ⟨rfl, ?_, ?_, ?_, ?_, ?_, ?_, ?_⟩ <;>
    · rw [hclose]
      try simp [pingTick, wsOnClose]

/-- C7 witness at the stale connected state, with the follow-up tick. -/
theorem claimC7_witness :
    (staleState.ws = some ReadyState.opened ∧
     staleState.lastPong = some 1 ∧ (1 : Nat) ≠ 0 ∧
     pongSilenceMs < 70000 - 1) ∧
    (pingIntervalMs = 25000 ∧
     (pingTick staleState 70000).2.closes = [(4000, "Ping timeout")] ∧
     (pingTick staleState 70000).2.pingsSent = 0 ∧
     (pingTick staleState 70000).1.ws = some ReadyState.closing ∧
     (pingTick (pingTick staleState 70000).1 95000).2.closes = [] ∧
     (pingTick (pingTick staleState 70000).1 95000).2.pingsSent = 0 ∧
     (wsOnClose (pingTick staleState 70000).1 4000 "Ping timeout").1.reconnectTimer
        = staleState.reconnectTimer ∧
     (wsOnClose (pingTick staleState 70000).1 4000 "Ping timeout").2.armedDelay = none) :=
  ⟨⟨rfl, rfl, by decide, by decide⟩,
   claimC7_heartbeat staleState 70000 95000 1 rfl rfl (by decide) (by decide)⟩

/-
  Claim C8.
-/

/-- Formalisation of claim C8 as stated: in every reachable state, whenever
getConnectionState reports disconnected the client holds no transport
handle (the interesting direction of the handle-iff-not-Disconnected
invariant; the other direction is immediate from getConnectionState). -/
def claimC8Statement : Prop :=
  ∀ s : GatewayState, Reachable s →
    getConnectionState s = "disconnected" → s.ws = none

/-- C8 counterexample: the onclose handler (lines 107-120) never nulls out
this.ws, so after connect() followed by a transport close event the client
reports disconnected while still holding the CLOSED handle. -/
theorem claimC8_counterexample : ¬ claimC8Statement := by
  intro h
  have hr : Reachable (wsOnClose (connectStep initialState).1 1006 "").1 :=
    Reachable.sockClose _ 1006 "" (Reachable.connect _ Reachable.init)
  have h2 := h _ hr (by decide)
  exact absurd h2 (by decide)

/-- C8 amended: getConnectionState reports disconnected exactly when the
client holds no transport handle OR holds a handle whose readyState is
CLOSED; a handle can survive into the disconnected state because the close
handler retains this.ws until disconnect() or a fresh connect() replaces it. -/
theorem claimC8_disconnected_handle (s : GatewayState) :
    getConnectionState s = "disconnected"
      ↔ (s.ws = none ∨ s.ws = some ReadyState.closed) := by
  cases hws : s.ws with
  | none => simp [getConnectionState, hws]
  | some rs =>
      cases rs <;> cases hc : s.connected <;>
        simp [getConnectionState, hws, hc]

/-
  Claim C9.
-/

/-- C9 confirmed: dispatching an emission to instrumented handler lists
invokes every topic handler in registration order and then every wildcard
handler in registration order, for every combination of throwing and
non-throwing handlers: a throw is confined by the per-handler try/catch
and never prevents the remaining topic or wildcard handlers from running. -/
theorem claimC9_dispatch_isolation (topicRegs wildcardRegs : List (Nat × Bool)) :
    emitDispatch (markHandlers topicRegs) (markHandlers wildcardRegs)
      = topicRegs.map Prod.fst ++ wildcardRegs.map Prod.fst := by
  simp [emitDispatch, runHandlers_markHandlers]

/-
  Claim C10.
-/

/-- C10 confirmed: any res frame whose payload.type is hello-ok marks the
client connected, resets the attempt counter to zero, starts the heartbeat
(ping interval armed, lastPong stamped), persists a device token exactly
when the payload carries a truthy one, emits the connected event and
resolves the outer connect promise with the payload — with no condition on
the frame id matching any tracked pending request. -/
theorem claimC10_hello_ok (s : GatewayState) (f : ResFrame) (now : Nat)
    (hf : f.payload.bind ResPayload.ptype = some "hello-ok") :
    (handleRes s f now).1.connected = true ∧
    (handleRes s f now).1.connectionAttempts = 0 ∧
    (handleRes s f now).1.pingInterval = true ∧
    (handleRes s f now).1.lastPong = some now ∧
    (handleRes s f now).2.connectResolve = some f.payload ∧
    (handleRes s f now).2.emits = ["connected"] ∧
    (handleRes s f now).1.storedDeviceToken
      = (if jsTruthyStr (f.payload.bind ResPayload.deviceToken)
          then f.payload.bind ResPayload.deviceToken
          else s.storedDeviceToken) := by
  refine ⟨?_, ?_, ?_, ?_, ?_, ?_, ?_⟩ <;> simp [handleRes, hf]

/-- A hello-ok frame carrying a device token, with an id matching no
tracked request. -/
def helloTokenFrame : ResFrame where
  id := some "unmatched"
  ok := true
  payload := some { ptype := some "hello-ok", protocol := some 3, deviceToken := some "tok9" }
  error := none

/-- C10 witness: the token-carrying hello-ok frame, addressed to an id the
fresh client does not track, still connects the client, persists the token
and resolves the connect promise. -/
theorem claimC10_witness :
    (helloTokenFrame.payload.bind ResPayload.ptype = some "hello-ok") ∧
    ((handleRes initialState helloTokenFrame 7).1.connected = true ∧
     (handleRes initialState helloTokenFrame 7).1.connectionAttempts = 0 ∧
     (handleRes initialState helloTokenFrame 7).1.pingInterval = true ∧
     (handleRes initialState helloTokenFrame 7).1.lastPong = some 7 ∧
     (handleRes initialState helloTokenFrame 7).2.connectResolve
        = some helloTokenFrame.payload ∧
     (handleRes initialState helloTokenFrame 7).2.emits = ["connected"] ∧
     (handleRes initialState helloTokenFrame 7).1.storedDeviceToken
        = (if jsTruthyStr (helloTokenFrame.payload.bind ResPayload.deviceToken)
            then helloTokenFrame.payload.bind ResPayload.deviceToken
            else initialState.storedDeviceToken)) :=
  ⟨rfl, claimC10_hello_ok initialState helloTokenFrame 7 rfl⟩

end EtherGateway
